import Mathlib

/-!
# Formal model of pygmsh's core

A shallow embedding of the two source files:

* `pygmsh/helpers.py` — the `generate_mesh` driver: assembly of the Gmsh
  command line, the subprocess-invocation / temp-file control flow, and the
  three mesh post-processing stages (`remove_faces` cell filtering,
  `prune_vertices` orphan pruning, `prune_z_0` flat-axis collapse).
* `pygmsh/built_in/spline.py` — the `Spline` primitive (validation and code
  rendering).

Conventions of the embedding:

* numpy float arrays become `List (List ℚ)` (row = point); float literals of
  the source (`1.0e-13`) become the exact rationals they denote;
* Python dicts (`mesh.cells`, `mesh.point_data`, …) become insertion-ordered
  association lists `List (String × _)`; `d[k]` becomes
  `(d.lookup k).getD _` (the source raises `KeyError` where the lookup is
  `none`, which theorems exclude by hypothesis);
* `numpy.unique(ncells, return_inverse=True)` returns the sorted list of
  distinct referenced indices together with, for each occurrence, its rank in
  that sorted list; the source then slices the inverse array back into the
  per-block shapes, which is the same as mapping every index of every block
  to its rank.  The embedding uses that elementwise form.
-/

namespace Pygmsh

/-- A decoded mesh record, as produced by `meshio.read` and transformed in
place by `generate_mesh`'s post-processing. -/
structure Mesh where
  points : List (List ℚ)
  cells : List (String × List (List Nat))
  point_data : List (String × List ℚ)
  cell_data : List (String × List ℚ)
  field_data : List (String × List ℚ)
deriving DecidableEq

/-- Key list of an insertion-ordered dict. -/
def keysOf {α : Type} (d : List (String × α)) : List String :=
  d.map Prod.fst

/-- `two_d_cells = set(["triangle", "quad"])` from the source. -/
def two_d_cells : List String := ["triangle", "quad"]

/-- `three_d_cells` from the source. -/
def three_d_cells : List String :=
  ["tetra", "hexahedron", "wedge", "pyramid", "penta_prism", "hexa_prism"]

/-- The `keep_keys` computed by the `remove_faces` block: the 3D cell types
present, else the 2D cell types present, else all keys.  (The source
materialises the first two branches as Python set intersections; the kept key
*set* is what matters, rendered here in the canonical order of the type
lists.) -/
def keep_keys (cells : List (String × List (List Nat))) : List String :=
  if three_d_cells.any (fun k => decide (k ∈ keysOf cells)) then
    three_d_cells.filter (fun k => decide (k ∈ keysOf cells))
  else if two_d_cells.any (fun k => decide (k ∈ keysOf cells)) then
    two_d_cells.filter (fun k => decide (k ∈ keysOf cells))
  else
    keysOf cells

/-- `{key: d[key] for key in ks}` — rebuild a dict on a key list. -/
def dictSelect {α : Type} (d : List (String × α)) (dflt : α) (ks : List String) :
    List (String × α) :=
  ks.map (fun k => (k, (d.lookup k).getD dflt))

/-- The `remove_faces` block of `generate_mesh`: keep only the highest-present
topological dimension's cell blocks, and the same keys of `cell_data`. -/
def removeFacesStage (m : Mesh) : Mesh :=
  { m with
    cells := dictSelect m.cells [] (keep_keys m.cells),
    cell_data := dictSelect m.cell_data [] (keep_keys m.cells) }

/-- `ncells`: every vertex index appearing in any cell block, in block order
(`numpy.concatenate([numpy.concatenate(c) for c in mesh.cells.values()])`). -/
def allRefs (cells : List (String × List (List Nat))) : List Nat :=
  (cells.map (fun kv => kv.2.flatten)).flatten

/-- `uvertices`: the sorted list of distinct referenced vertex indices
(`numpy.unique(ncells)`). -/
def uvertices (cells : List (String × List (List Nat))) : List Nat :=
  List.insertionSort (· ≤ ·) (allRefs cells).dedup

/-- numpy fancy row indexing `rows[idxs]`. -/
def selectRows {α : Type} (idxs : List Nat) (rows : List α) : List α :=
  idxs.filterMap (fun i => rows[i]?)

/-- The `prune_vertices` block of `generate_mesh`: remap every vertex index to
its rank in `uvertices` (the `return_inverse` array of `numpy.unique`, sliced
back into the block shapes), keep only the referenced points, and select the
same rows of every `point_data` array. -/
def pruneStage (m : Mesh) : Mesh :=
  let uv := uvertices m.cells
  { m with
    cells := m.cells.map
      (fun kv => (kv.1, kv.2.map (fun row => row.map (fun i => uv.indexOf i)))),
    points := selectRows uv m.points,
    point_data := m.point_data.map (fun kv => (kv.1, selectRows uv kv.2)) }

/-- The source's flat-axis tolerance `1.0e-13`, i.e. the rational 1/10^13
(given as an explicit numerator/denominator pair). -/
def ztol : ℚ := ⟨1, 10 ^ 13, by decide, by decide⟩

/-- `mesh.points.shape[1]`: the row width of a rectangular points array. -/
def shapeCols (points : List (List ℚ)) : Nat :=
  (points.head?.map List.length).getD 0

/-- One point's test in `numpy.all(numpy.abs(mesh.points[:, 2]) < 1.0e-13)`. -/
def thirdCoordSmall (p : List ℚ) : Bool :=
  decide (|p.getD 2 0| < ztol)

/-- `numpy.all(numpy.abs(mesh.points[:, 2]) < 1.0e-13)`. -/
def flatThird (points : List (List ℚ)) : Bool :=
  points.all thirdCoordSmall

/-- The `prune_z_0` block of `generate_mesh` (minus its toggle): if the points
are 3-wide and every third coordinate is below tolerance in absolute value,
keep only the first two columns (`mesh.points[:, :2]`). -/
def pruneZ0Stage (m : Mesh) : Mesh :=
  if shapeCols m.points = 3 ∧ flatThird m.points = true then
    { m with points := m.points.map (fun p => p.take 2) }
  else
    m

/-- The full post-processing pipeline of `generate_mesh`, transcribed from the
source as the sequence of its three conditional blocks (each block's body
inlined as it appears in the source). -/
def postProcessMesh (remove_faces prune_vertices prune_z_0 : Bool) (mesh0 : Mesh) : Mesh :=
  let mesh1 :=
    if remove_faces then
      { mesh0 with
        cells := dictSelect mesh0.cells [] (keep_keys mesh0.cells),
        cell_data := dictSelect mesh0.cell_data [] (keep_keys mesh0.cells) }
    else mesh0
  let mesh2 :=
    if prune_vertices then
      let uv := uvertices mesh1.cells
      { mesh1 with
        cells := mesh1.cells.map
          (fun kv => (kv.1, kv.2.map (fun row => row.map (fun i => uv.indexOf i)))),
        points := selectRows uv mesh1.points,
        point_data := mesh1.point_data.map (fun kv => (kv.1, selectRows uv kv.2)) }
    else mesh1
  if prune_z_0 = true ∧ shapeCols mesh2.points = 3 ∧ flatThird mesh2.points = true then
    { mesh2 with points := mesh2.points.map (fun p => p.take 2) }
  else mesh2

/-- The error surfaced when the Gmsh subprocess exits non-zero
(`assert p.returncode == 0` in the source). -/
inductive RunError where
  | engineFailure (returncode : Int)
deriving DecidableEq

/-- Existence of the two temporary files of `generate_mesh`: the written
`.geo` script and the mesh output file. -/
structure TempFiles where
  geoExists : Bool
  mshExists : Bool
deriving DecidableEq

/-- The temp-file control flow of `generate_mesh`, as a function of the
engine's exit status.  Transcribed from the source's statement order:
the geo script is written; both `NamedTemporaryFile` context managers have
already deleted their placeholder files, so only the geo file exists when the
engine starts; the engine writes the mesh output on success (modelled as
writing nothing on failure); `assert p.returncode == 0` fires *before* any
`os.remove`, so a non-zero exit propagates with the files as they stand;
on success, `os.remove(msh_filename)` always runs and
`os.remove(geo_filename)` runs unless the caller passed a `geo_filename`
(retention for debugging). -/
def generateMeshRun (preserve_geo : Bool) (returncode : Int) :
    Except RunError Unit × TempFiles :=
  let st : TempFiles := { geoExists := true, mshExists := false }
  if returncode ≠ 0 then
    (Except.error (RunError.engineFailure returncode), st)
  else
    let st := { st with mshExists := true }
    let st := { st with mshExists := false }
    let st := if preserve_geo then st else { st with geoExists := false }
    (Except.ok (), st)

/-- A geometric entity handed to `Spline.__init__`: either a `Point` or some
other entity kind; each carries its Gmsh variable id. -/
inductive GeomEntity where
  | point (id : String)
  | other (id : String)
deriving DecidableEq

/-- The `id` attribute of an entity. -/
def GeomEntity.entityId : GeomEntity → String
  | .point i => i
  | .other i => i

/-- `isinstance(c, Point)`. -/
def GeomEntity.isPoint : GeomEntity → Bool
  | .point _ => true
  | .other _ => false

/-- The two assertion failures of `Spline.__init__`, in source order:
`assert isinstance(c, Point)` and `assert len(points) > 3`. -/
inductive SplineError where
  | notAPoint
  | tooFewPoints
deriving DecidableEq

/-- A constructed `Spline`: its id, its point list, and its rendered code. -/
structure Spline where
  id : String
  points : List GeomEntity
  code : String
deriving DecidableEq

/-- `self.code` of `Spline.__init__`:
`'\n'.join(['{} = newl;'.format(self.id), 'BSpline({}) = {{{}}};'.format(self.id, ', '.join([c.id for c in self.points]))])`. -/
def splineCode (id : String) (points : List GeomEntity) : String :=
  String.intercalate "\n"
    [id ++ " = newl;",
     "BSpline(" ++ id ++ ") = \x7b" ++
       String.intercalate ", " (points.map GeomEntity.entityId) ++ "\x7d;"]

/-- `Spline.__init__`: validate every element is a `Point`, then the count,
then render the code.  (The `id` is issued by `LineBase.__init__`, outside the
two source files; it enters here as a parameter.) -/
def mkSpline (id : String) (points : List GeomEntity) : Except SplineError Spline :=
  if points.all GeomEntity.isPoint then
    if 3 < points.length then
      Except.ok { id := id, points := points, code := splineCode id points }
    else
      Except.error SplineError.tooFewPoints
  else
    Except.error SplineError.notAPoint

/-- The extra Gmsh arguments after the `mesh_file_type == "mesh"` fix-up
(`extra_gmsh_arguments += ["-string", "Mesh.SaveElementTagType=2;"]`). -/
def effectiveExtraArgs (mesh_file_type : String) (extra_gmsh_arguments : List String) :
    List String :=
  if mesh_file_type = "mesh" then
    extra_gmsh_arguments ++ ["-string", "Mesh.SaveElementTagType=2;"]
  else
    extra_gmsh_arguments

/-- The `args` list handed to the Gmsh subprocess (everything after the
executable name), from the source's `args = [...] + extra_gmsh_arguments`. -/
def gmshArgs (dim : Nat) (geo_filename mesh_file_type msh_filename : String)
    (extra_gmsh_arguments : List String) : List String :=
  ["-" ++ toString dim, geo_filename, "-format", mesh_file_type, "-bin", "-o",
    msh_filename] ++ effectiveExtraArgs mesh_file_type extra_gmsh_arguments

/-- The rational 1/1000000, the spec's `1.0e-6` example coordinate. -/
def oneMillionth : ℚ := ⟨1, 1000000, by decide, by decide⟩

/-- Concrete mesh: 10 points of which only `{1,3,5,7}` are referenced by the
single retained cell block (the spec's pruning example). -/
def meshTen : Mesh :=
  { points := [[0], [1], [2], [3], [4], [5], [6], [7], [8], [9]],
    cells := [("tetra", [[1, 3, 5, 7]])],
    point_data := [("f", [0, 10, 20, 30, 40, 50, 60, 70, 80, 90])],
    cell_data := [("tetra", [1])],
    field_data := [] }

/-- Concrete mesh holding both a tetra block and a non-empty triangle block
(the spec's filtering-precedence example). -/
def meshTetraTri : Mesh :=
  { points := [[0, 0, 0], [1, 0, 0], [0, 1, 0], [0, 0, 1]],
    cells := [("triangle", [[0, 1, 2]]), ("tetra", [[0, 1, 2, 3]])],
    point_data := [],
    cell_data := [("triangle", [7]), ("tetra", [1])],
    field_data := [] }

/-- Concrete mesh whose third coordinates are all exactly 0. -/
def meshFlat : Mesh :=
  { points := [[1, 2, 0], [3, 4, 0]],
    cells := [("triangle", [[0, 1]])],
    point_data := [],
    cell_data := [],
    field_data := [] }

/-- Concrete mesh with one third coordinate equal to `1.0e-6`, above the
flat-axis tolerance. -/
def meshSlightlyOff : Mesh :=
  { points := [[1, 2, oneMillionth], [3, 4, 0]],
    cells := [("triangle", [[0, 1]])],
    point_data := [],
    cell_data := [],
    field_data := [] }

/-- Four `Point` entities. -/
def fourPts : List GeomEntity :=
  [GeomEntity.point "p1", GeomEntity.point "p2", GeomEntity.point "p3",
    GeomEntity.point "p4"]

/-- Three `Point` entities. -/
def threePts : List GeomEntity :=
  [GeomEntity.point "p1", GeomEntity.point "p2", GeomEntity.point "p3"]

/-- The spline built from `fourPts` under the id `"l1"`. -/
def splineOfFour : Spline :=
  { id := "l1", points := fourPts, code := splineCode "l1" fourPts }

/-! ## Helper lemmas -/

theorem intercalate_pair (sep a b : String) :
    String.intercalate sep [a, b] = a ++ sep ++ b := by
  simp [String.intercalate, String.intercalate.go]

theorem keysOf_dictSelect {α : Type} (d : List (String × α)) (dflt : α)
    (ks : List String) : keysOf (dictSelect d dflt ks) = ks := by
  simp [keysOf, dictSelect, Function.comp_def]

theorem lookup_dictSelect {α : Type} (d : List (String × α)) (dflt : α)
    {ks : List String} {k : String} (hk : k ∈ ks) :
    (dictSelect d dflt ks).lookup k = some ((d.lookup k).getD dflt) := by
  induction ks with
  | nil => cases hk
  | cons a as ih =>
    by_cases hak : k = a
    · subst hak
      simp [dictSelect, List.lookup]
    · have hne : (k == a) = false := beq_eq_false_iff_ne.mpr hak
      have hmem : k ∈ as := by
        rcases List.mem_cons.1 hk with h | h
        · exact absurd h hak
        · exact h
      simpa [dictSelect, List.lookup, hne] using ih hmem

theorem lookup_isSome_of_mem_keys {α : Type} {d : List (String × α)} {k : String}
    (h : k ∈ keysOf d) : ∃ v, d.lookup k = some v := by
  induction d with
  | nil => simp [keysOf] at h
  | cons p ps ih =>
    rcases p with ⟨a, v⟩
    by_cases hak : k = a
    · exact ⟨v, by simp [List.lookup, hak]⟩
    · have hne : (k == a) = false := beq_eq_false_iff_ne.mpr hak
      have h' : k ∈ a :: keysOf ps := h
      have hmem : k ∈ keysOf ps := by
        rcases List.mem_cons.1 h' with h'' | h''
        · exact absurd h'' hak
        · exact h''
      obtain ⟨w, hw⟩ := ih hmem
      exact ⟨w, by simp [List.lookup, hne, hw]⟩

theorem dictSelect_keysOf_self {α : Type} (d : List (String × α)) (dflt : α)
    (hnd : (keysOf d).Nodup) : dictSelect d dflt (keysOf d) = d := by
  induction d with
  | nil => rfl
  | cons p ps ih =>
    rcases p with ⟨a, v⟩
    have hcons : a ∉ keysOf ps ∧ (keysOf ps).Nodup := by
      simpa [keysOf, List.nodup_cons] using hnd
    have hstep : dictSelect (⟨a, v⟩ :: ps) dflt (keysOf ps) = dictSelect ps dflt (keysOf ps) := by
      unfold dictSelect
      refine List.map_congr_left (fun k hks => ?_)
      have hka : ¬ (k == a) = true := by
        simp only [beq_iff_eq]
        exact fun h => hcons.1 (h ▸ hks)
      simp [List.lookup, hka]
    calc dictSelect (⟨a, v⟩ :: ps) dflt (keysOf (⟨a, v⟩ :: ps))
        = (a, ((⟨a, v⟩ :: ps).lookup a).getD dflt) :: dictSelect (⟨a, v⟩ :: ps) dflt (keysOf ps) := by
          simp [dictSelect, keysOf]
      _ = (a, v) :: dictSelect ps dflt (keysOf ps) := by
          rw [hstep]; simp [List.lookup]
      _ = (a, v) :: ps := by rw [ih hcons.2]

theorem keep_keys_three_d {cs : List (String × List (List Nat))}
    (h : ∃ k ∈ three_d_cells, k ∈ keysOf cs) :
    keep_keys cs = three_d_cells.filter (fun k => decide (k ∈ keysOf cs)) := by
  unfold keep_keys
  rw [if_pos]
  rw [List.any_eq_true]
  obtain ⟨k, hk1, hk2⟩ := h
  exact ⟨k, hk1, by simpa using hk2⟩

theorem keep_keys_two_d {cs : List (String × List (List Nat))}
    (h3 : ¬ ∃ k ∈ three_d_cells, k ∈ keysOf cs)
    (h2 : ∃ k ∈ two_d_cells, k ∈ keysOf cs) :
    keep_keys cs = two_d_cells.filter (fun k => decide (k ∈ keysOf cs)) := by
  unfold keep_keys
  rw [if_neg, if_pos]
  · rw [List.any_eq_true]
    obtain ⟨k, hk1, hk2⟩ := h2
    exact ⟨k, hk1, by simpa using hk2⟩
  · rw [List.any_eq_true]
    rintro ⟨k, hk1, hk2⟩
    exact h3 ⟨k, hk1, by simpa using hk2⟩

theorem keep_keys_none {cs : List (String × List (List Nat))}
    (h3 : ¬ ∃ k ∈ three_d_cells, k ∈ keysOf cs)
    (h2 : ¬ ∃ k ∈ two_d_cells, k ∈ keysOf cs) :
    keep_keys cs = keysOf cs := by
  unfold keep_keys
  rw [if_neg, if_neg]
  · rw [List.any_eq_true]
    rintro ⟨k, hk1, hk2⟩
    exact h2 ⟨k, hk1, by simpa using hk2⟩
  · rw [List.any_eq_true]
    rintro ⟨k, hk1, hk2⟩
    exact h3 ⟨k, hk1, by simpa using hk2⟩

theorem keep_keys_subset {cs : List (String × List (List Nat))} :
    ∀ k ∈ keep_keys cs, k ∈ keysOf cs := by
  intro k hk
  unfold keep_keys at hk
  split at hk
  · simpa using (List.mem_filter.1 hk).2
  · split at hk
    · simpa using (List.mem_filter.1 hk).2
    · exact hk

theorem mem_allRefs {cs : List (String × List (List Nat))} {i : Nat} :
    i ∈ allRefs cs ↔ ∃ kv ∈ cs, ∃ row ∈ kv.2, i ∈ row := by
  unfold allRefs
  rw [List.mem_flatten]
  constructor
  · rintro ⟨l, hl, hil⟩
    obtain ⟨kv, hkv, rfl⟩ := List.mem_map.1 hl
    obtain ⟨row, hrow, hi⟩ := List.mem_flatten.1 hil
    exact ⟨kv, hkv, row, hrow, hi⟩
  · rintro ⟨kv, hkv, row, hrow, hi⟩
    exact ⟨kv.2.flatten, List.mem_map.2 ⟨kv, hkv, rfl⟩, List.mem_flatten.2 ⟨row, hrow, hi⟩⟩

theorem mem_uvertices {cs : List (String × List (List Nat))} {i : Nat} :
    i ∈ uvertices cs ↔ i ∈ allRefs cs := by
  unfold uvertices
  rw [(List.perm_insertionSort (· ≤ ·) (allRefs cs).dedup).mem_iff, List.mem_dedup]

theorem uvertices_nodup (cs : List (String × List (List Nat))) :
    (uvertices cs).Nodup :=
  (List.perm_insertionSort _ _).nodup_iff.mpr (List.nodup_dedup _)

theorem uvertices_sorted_lt (cs : List (String × List (List Nat))) :
    (uvertices cs).Sorted (· < ·) := by
  have h1 : (uvertices cs).Sorted (· ≤ ·) := List.sorted_insertionSort _ _
  have h2 := uvertices_nodup cs
  exact (h1.and h2).imp (fun hab => lt_of_le_of_ne hab.1 hab.2)

theorem indexOf_mono_of_sorted {l : List Nat} (hs : l.Sorted (· < ·))
    {a b : Nat} (ha : a ∈ l) (hb : b ∈ l) (hab : a < b) :
    l.indexOf a < l.indexOf b := by
  rcases lt_trichotomy (l.indexOf a) (l.indexOf b) with h | h | h
  · exact h
  · exact absurd ((List.indexOf_inj ha hb).1 h) (ne_of_lt hab)
  · exfalso
    have hlt : (⟨l.indexOf b, List.indexOf_lt_length.2 hb⟩ : Fin l.length) <
        ⟨l.indexOf a, List.indexOf_lt_length.2 ha⟩ := h
    have hba := hs.rel_get_of_lt hlt
    rw [List.indexOf_get, List.indexOf_get] at hba
    exact lt_irrefl a (lt_trans hab hba)

theorem selectRows_getElem {α : Type} (idxs : List Nat) (rows : List α)
    (h : ∀ i ∈ idxs, i < rows.length) (j : Nat) :
    (selectRows idxs rows)[j]? = idxs[j]?.bind (fun i => rows[i]?) := by
  induction idxs generalizing j with
  | nil => simp [selectRows]
  | cons i is ih =>
    have hi : i < rows.length := h i (by simp)
    have hv : rows[i]? = some rows[i] := List.getElem?_eq_getElem hi
    have hrec := ih (fun x hx => h x (by simp [hx]))
    cases j with
    | zero => simp [selectRows, List.filterMap_cons, hv]
    | succ j => simpa [selectRows, List.filterMap_cons, hv] using hrec j

theorem selectRows_length {α : Type} (idxs : List Nat) (rows : List α)
    (h : ∀ i ∈ idxs, i < rows.length) :
    (selectRows idxs rows).length = idxs.length := by
  induction idxs with
  | nil => rfl
  | cons i is ih =>
    have hi : i < rows.length := h i (by simp)
    have hv : rows[i]? = some rows[i] := List.getElem?_eq_getElem hi
    have hrec := ih (fun x hx => h x (by simp [hx]))
    simpa [selectRows, List.filterMap_cons, hv] using hrec

theorem field_data_ite (c : Prop) [Decidable c] (x y : Mesh) :
    (if c then x else y).field_data = if c then x.field_data else y.field_data := by
  split <;> rfl

theorem lookup_removeFaces {m : Mesh} {k : String} (hk : k ∈ keep_keys m.cells) :
    (removeFacesStage m).cells.lookup k = m.cells.lookup k := by
  obtain ⟨v, hv⟩ := lookup_isSome_of_mem_keys (keep_keys_subset k hk)
  rw [show (removeFacesStage m).cells = dictSelect m.cells [] (keep_keys m.cells) from rfl,
    lookup_dictSelect _ _ hk, hv]
  rfl

/-! ## Claim theorems -/

/-- Claim C2: with `remove_faces` enabled, `generate_mesh` keeps exactly the
volumetric (3D) cell-type blocks if at least one volumetric cell-type is
present; otherwise exactly the surface (2D) blocks if at least one surface
cell-type is present; otherwise it leaves the cell blocks unchanged.  Kept
blocks keep their connectivity arrays. -/
theorem removeFacesStage_spec (m : Mesh) (hnd : (keysOf m.cells).Nodup) :
    ((∃ k ∈ three_d_cells, k ∈ keysOf m.cells) →
      (∀ k, k ∈ keysOf (removeFacesStage m).cells ↔
        k ∈ three_d_cells ∧ k ∈ keysOf m.cells) ∧
      ∀ k ∈ keysOf (removeFacesStage m).cells,
        (removeFacesStage m).cells.lookup k = m.cells.lookup k) ∧
    ((¬ ∃ k ∈ three_d_cells, k ∈ keysOf m.cells) →
      (∃ k ∈ two_d_cells, k ∈ keysOf m.cells) →
      (∀ k, k ∈ keysOf (removeFacesStage m).cells ↔
        k ∈ two_d_cells ∧ k ∈ keysOf m.cells) ∧
      ∀ k ∈ keysOf (removeFacesStage m).cells,
        (removeFacesStage m).cells.lookup k = m.cells.lookup k) ∧
    ((¬ ∃ k ∈ three_d_cells, k ∈ keysOf m.cells) →
      (¬ ∃ k ∈ two_d_cells, k ∈ keysOf m.cells) →
      (removeFacesStage m).cells = m.cells) := by
  have hko : keysOf (removeFacesStage m).cells = keep_keys m.cells :=
    keysOf_dictSelect m.cells [] (keep_keys m.cells)
  refine ⟨fun h3 => ⟨?_, ?_⟩, fun h3 h2 => ⟨?_, ?_⟩, fun h3 h2 => ?_⟩
  · intro k
    rw [hko, keep_keys_three_d h3, List.mem_filter]
    simp
  · intro k hk
    rw [hko] at hk
    exact lookup_removeFaces hk
  · intro k
    rw [hko, keep_keys_two_d h3 h2, List.mem_filter]
    simp
  · intro k hk
    rw [hko] at hk
    exact lookup_removeFaces hk
  · show dictSelect m.cells [] (keep_keys m.cells) = m.cells
    rw [keep_keys_none h3 h2]
    exact dictSelect_keysOf_self m.cells [] hnd

/-- Witness for C2 at the spec's filtering-precedence example: a mesh with a
tetra block and a non-empty triangle block retains only the tetra block. -/
theorem removeFacesStage_spec_witness :
    ((keysOf meshTetraTri.cells).Nodup ∧
      ∃ k ∈ three_d_cells, k ∈ keysOf meshTetraTri.cells) ∧
    (∀ k, k ∈ keysOf (removeFacesStage meshTetraTri).cells ↔
      k ∈ three_d_cells ∧ k ∈ keysOf meshTetraTri.cells) ∧
    (removeFacesStage meshTetraTri).cells = [("tetra", [[0, 1, 2, 3]])] :=
  ⟨⟨by decide, ⟨"tetra", by decide, by decide⟩⟩,
   ((removeFacesStage_spec meshTetraTri (by decide)).1
     ⟨"tetra", by decide, by decide⟩).1,
   by decide⟩

/-- Claim C10: after the `remove_faces` stage, `cell_data` and `cells` have the
same key list, and retained keys keep their per-cell data. -/
theorem removeFacesStage_cell_data_keys (m : Mesh)
    (h : ∀ k ∈ keysOf m.cells, k ∈ keysOf m.cell_data) :
    keysOf (removeFacesStage m).cell_data = keysOf (removeFacesStage m).cells ∧
    ∀ k ∈ keysOf (removeFacesStage m).cells,
      (removeFacesStage m).cell_data.lookup k = m.cell_data.lookup k := by
  constructor
  · exact (keysOf_dictSelect m.cell_data [] (keep_keys m.cells)).trans
      (keysOf_dictSelect m.cells [] (keep_keys m.cells)).symm
  · intro k hk
    rw [show (removeFacesStage m).cells = dictSelect m.cells [] (keep_keys m.cells)
        from rfl, keysOf_dictSelect] at hk
    obtain ⟨v, hv⟩ := lookup_isSome_of_mem_keys (h k (keep_keys_subset k hk))
    rw [show (removeFacesStage m).cell_data =
          dictSelect m.cell_data [] (keep_keys m.cells) from rfl,
      lookup_dictSelect _ _ hk, hv]
    rfl

/-- Witness for C10 at a mesh with tetra and triangle blocks and data for
both. -/
theorem removeFacesStage_cell_data_keys_witness :
    (∀ k ∈ keysOf meshTetraTri.cells, k ∈ keysOf meshTetraTri.cell_data) ∧
    keysOf (removeFacesStage meshTetraTri).cell_data =
      keysOf (removeFacesStage meshTetraTri).cells :=
  ⟨by decide, (removeFacesStage_cell_data_keys meshTetraTri (by decide)).1⟩

/-- Claim C3: constructing a `Spline` with three or fewer points, or with any
element that is not a `Point`, fails; constructing one with four or more
`Point` entities succeeds. -/
theorem mkSpline_validation (id : String) (pts : List GeomEntity) :
    ((pts.length ≤ 3 ∨ ∃ e ∈ pts, e.isPoint = false) →
      ∃ err, mkSpline id pts = Except.error err) ∧
    ((∀ e ∈ pts, e.isPoint = true) → 3 < pts.length →
      ∃ s, mkSpline id pts = Except.ok s) := by
  constructor
  · intro h
    unfold mkSpline
    by_cases hall : pts.all GeomEntity.isPoint = true
    · have hlen : ¬ 3 < pts.length := by
        rcases h with h | ⟨e, he, hep⟩
        · omega
        · exact absurd (List.all_eq_true.1 hall e he) (by simp [hep])
      rw [if_pos hall, if_neg hlen]
      exact ⟨_, rfl⟩
    · rw [if_neg hall]
      exact ⟨_, rfl⟩
  · intro hall hlen
    unfold mkSpline
    rw [if_pos (List.all_eq_true.2 hall), if_pos hlen]
    exact ⟨_, rfl⟩

/-- Witness for C3: exactly 3 points fails, exactly 4 points succeeds. -/
theorem mkSpline_validation_witness :
    (∃ err, mkSpline "l1" threePts = Except.error err) ∧
    (∃ s, mkSpline "l1" fourPts = Except.ok s) :=
  ⟨(mkSpline_validation "l1" threePts).1 (Or.inl (by decide)),
   (mkSpline_validation "l1" fourPts).2 (by decide) (by decide)⟩

/-- Claim C4: a successfully constructed spline's `code` is exactly two
newline-joined lines — the id bound to `newl`, then a `BSpline` statement
over exactly the supplied point ids in input order — and success implies
more than three points. -/
theorem mkSpline_code_format (id : String) (pts : List GeomEntity) (s : Spline)
    (h : mkSpline id pts = Except.ok s) :
    3 < pts.length ∧
    s.code = (id ++ " = newl;") ++ "\n" ++
      ("BSpline(" ++ id ++ ") = \x7b" ++
        String.intercalate ", " (pts.map GeomEntity.entityId) ++ "\x7d;") := by
  unfold mkSpline at h
  split_ifs at h with h1 h2
  · injection h with h
    subst h
    refine ⟨h2, ?_⟩
    show splineCode id pts = _
    unfold splineCode
    rw [intercalate_pair]

/-- Witness for C4 at four concrete points. -/
theorem mkSpline_code_format_witness :
    3 < fourPts.length ∧
    splineOfFour.code = ("l1" ++ " = newl;") ++ "\n" ++
      ("BSpline(" ++ "l1" ++ ") = \x7b" ++
        String.intercalate ", " (fourPts.map GeomEntity.entityId) ++ "\x7d;") :=
  mkSpline_code_format "l1" fourPts splineOfFour rfl

/-- Counterexample to claim C5 as stated: with script retention *not*
requested and engine exit status 1, `generate_mesh` raises (the failed
`assert p.returncode == 0`), yet the written geo script file still exists —
the `os.remove` calls sit after the assertion, so no cleanup happens on the
engine-failure path. -/
theorem generateMeshRun_failure_counterexample :
    (generateMeshRun false 1).1 = Except.error (RunError.engineFailure 1) ∧
    (generateMeshRun false 1).2.geoExists = true :=
  ⟨rfl, rfl⟩

/-- Amended C5: whenever the engine exits non-zero, `generate_mesh` surfaces
an engine failure to the caller, but removes neither temporary file on that
path: the geo script file remains (the mesh output file was never created by
the failing engine in this model). -/
theorem generateMeshRun_failure_no_cleanup (preserve_geo : Bool) (rc : Int)
    (h : rc ≠ 0) :
    generateMeshRun preserve_geo rc =
      (Except.error (RunError.engineFailure rc),
        { geoExists := true, mshExists := false }) := by
  simp [generateMeshRun, h]

/-- Witness for the amended C5 at exit status 1. -/
theorem generateMeshRun_failure_no_cleanup_witness :
    generateMeshRun false 1 =
      (Except.error (RunError.engineFailure 1),
        { geoExists := true, mshExists := false }) :=
  generateMeshRun_failure_no_cleanup false 1 (by decide)

/-- Claim C6: with flat-axis collapse enabled on a mesh whose points have
three coordinates, the third coordinate is dropped from every point when every
third coordinate is within the fixed tolerance of zero in absolute value, and
the points are left untouched when any third coordinate reaches or exceeds the
tolerance. -/
theorem pruneZ0Stage_spec (m : Mesh) (h0 : m.points ≠ [])
    (h3 : ∀ p ∈ m.points, p.length = 3) :
    ((∀ p ∈ m.points, |p.getD 2 0| < ztol) →
      (pruneZ0Stage m).points = m.points.map (fun p => p.take 2)) ∧
    ((∃ p ∈ m.points, ¬ |p.getD 2 0| < ztol) → pruneZ0Stage m = m) := by
  have hsc : shapeCols m.points = 3 := by
    obtain ⟨p, ps, hp⟩ := List.exists_cons_of_ne_nil h0
    rw [hp]
    simp [shapeCols, h3 p (by rw [hp]; simp)]
  constructor
  · intro hall
    have hft : flatThird m.points = true := by
      rw [flatThird, List.all_eq_true]
      intro p hp
      exact decide_eq_true (hall p hp)
    unfold pruneZ0Stage
    rw [if_pos ⟨hsc, hft⟩]
  · rintro ⟨p, hp, hnp⟩
    have hft : ¬ flatThird m.points = true := by
      rw [flatThird, List.all_eq_true]
      intro hcontra
      exact hnp (of_decide_eq_true (hcontra p hp))
    unfold pruneZ0Stage
    rw [if_neg (fun hc => hft hc.2)]

/-- Witness for C6: all third coordinates exactly 0 collapses to 2D; a third
coordinate of 1.0e-6 leaves the points 3D. -/
theorem pruneZ0Stage_spec_witness :
    (meshFlat.points ≠ [] ∧ ∀ p ∈ meshFlat.points, p.length = 3) ∧
    (pruneZ0Stage meshFlat).points = [[1, 2], [3, 4]] ∧
    pruneZ0Stage meshSlightlyOff = meshSlightlyOff :=
  ⟨⟨by decide, by decide⟩,
   by rw [(pruneZ0Stage_spec meshFlat (by decide) (by decide)).1 (by decide)]; decide,
   (pruneZ0Stage_spec meshSlightlyOff (by decide) (by decide)).2
     ⟨[1, 2, oneMillionth], by decide, by decide⟩⟩

/-- Claim C7: with all three cleanup toggles enabled, the post-processing of
`generate_mesh` is the sequential composition of dimension-based cell
filtering, then orphan-vertex pruning on the filtered cells, then flat-axis
collapse, in that order. -/
theorem postProcess_stage_order (m : Mesh) :
    postProcessMesh true true true m =
      pruneZ0Stage (pruneStage (removeFacesStage m)) := by
  simp only [postProcessMesh, removeFacesStage, pruneStage, pruneZ0Stage,
    if_true, true_and]

/-- Claim C1: after orphan-vertex pruning, every vertex index appearing in
any retained cell block is in range of the pruned points; every remaining
point is referenced by at least one retained cell; the remapping to the dense
0-based numbering is stable (strictly order-preserving on surviving original
indices, and the new point list is the surviving rows in increasing original
index order); and every `point_data` array gets the same row selection as the
points. -/
theorem pruneStage_invariants (m : Mesh)
    (href : ∀ i ∈ allRefs m.cells, i < m.points.length) :
    (∀ kv ∈ (pruneStage m).cells, ∀ row ∈ kv.2, ∀ j ∈ row,
      j < (pruneStage m).points.length) ∧
    (∀ j < (pruneStage m).points.length,
      ∃ kv ∈ (pruneStage m).cells, ∃ row ∈ kv.2, j ∈ row) ∧
    (∀ i₁ ∈ allRefs m.cells, ∀ i₂ ∈ allRefs m.cells, i₁ < i₂ →
      (uvertices m.cells).indexOf i₁ < (uvertices m.cells).indexOf i₂) ∧
    (∀ j : Nat, (pruneStage m).points[j]? =
      ((uvertices m.cells)[j]?).bind (fun i => m.points[i]?)) ∧
    (∀ kv ∈ m.point_data,
      (kv.1, selectRows (uvertices m.cells) kv.2) ∈ (pruneStage m).point_data) := by
  have huvlt : ∀ i ∈ uvertices m.cells, i < m.points.length :=
    fun i hi => href i (mem_uvertices.1 hi)
  have hlen : (pruneStage m).points.length = (uvertices m.cells).length := by
    show (selectRows (uvertices m.cells) m.points).length = _
    exact selectRows_length _ _ huvlt
  refine ⟨?_, ?_, ?_, ?_, ?_⟩
  · intro kv hkv row hrow j hj
    have hkv' : kv ∈ m.cells.map (fun kv =>
        (kv.1, kv.2.map (fun row => row.map
          (fun i => (uvertices m.cells).indexOf i)))) := hkv
    obtain ⟨kv0, hkv0, rfl⟩ := List.mem_map.1 hkv'
    obtain ⟨row0, hrow0, rfl⟩ := List.mem_map.1 hrow
    obtain ⟨i, hi, rfl⟩ := List.mem_map.1 hj
    have hiuv : i ∈ uvertices m.cells :=
      mem_uvertices.2 (mem_allRefs.2 ⟨kv0, hkv0, row0, hrow0, hi⟩)
    rw [hlen]
    exact List.indexOf_lt_length.2 hiuv
  · intro j hj
    rw [hlen] at hj
    have hjuv : (uvertices m.cells)[j] ∈ uvertices m.cells := List.getElem_mem hj
    obtain ⟨kv0, hkv0, row0, hrow0, hi⟩ := mem_allRefs.1 (mem_uvertices.1 hjuv)
    refine ⟨(kv0.1, kv0.2.map (fun row => row.map
        (fun i => (uvertices m.cells).indexOf i))),
      List.mem_map.2 ⟨kv0, hkv0, rfl⟩,
      row0.map (fun i => (uvertices m.cells).indexOf i),
      List.mem_map.2 ⟨row0, hrow0, rfl⟩, ?_⟩
    have hmem : (uvertices m.cells).indexOf ((uvertices m.cells)[j]) ∈
        row0.map (fun i => (uvertices m.cells).indexOf i) :=
      List.mem_map.2 ⟨(uvertices m.cells)[j], hi, rfl⟩
    rwa [List.indexOf_getElem (uvertices_nodup m.cells) j hj] at hmem
  · intro i1 hi1 i2 hi2 h12
    exact indexOf_mono_of_sorted (uvertices_sorted_lt m.cells)
      (mem_uvertices.2 hi1) (mem_uvertices.2 hi2) h12
  · intro j
    show (selectRows (uvertices m.cells) m.points)[j]? = _
    exact selectRows_getElem _ _ huvlt j
  · intro kv hkv
    exact List.mem_map.2 ⟨kv, hkv, rfl⟩

/-- Witness for C1 at the spec's 10-point example where only `{1,3,5,7}` are
referenced by retained cells: pruning yields exactly 4 points in their
original relative order, cell indices remapped into `[0,4)`, and the same
rows selected from `point_data`. -/
theorem pruneStage_invariants_witness :
    (∀ i ∈ allRefs meshTen.cells, i < meshTen.points.length) ∧
    (pruneStage meshTen).points = [[1], [3], [5], [7]] ∧
    (pruneStage meshTen).cells = [("tetra", [[0, 1, 2, 3]])] ∧
    (pruneStage meshTen).point_data = [("f", [10, 30, 50, 70])] ∧
    (∀ kv ∈ (pruneStage meshTen).cells, ∀ row ∈ kv.2, ∀ j ∈ row,
      j < (pruneStage meshTen).points.length) :=
  ⟨by decide, by decide, by decide, by decide,
   (pruneStage_invariants meshTen (by decide)).1⟩

/-- Claim C8: the Gmsh argument list is the dimension flag, the script path,
the output format, the binary flag, the output path, then the caller's extra
arguments verbatim, with the tag-preservation option added for the `"mesh"`
format. -/
theorem gmshArgs_spec (dim : Nat) (geo_filename mesh_file_type msh_filename : String)
    (extra_gmsh_arguments : List String) :
    gmshArgs dim geo_filename mesh_file_type msh_filename extra_gmsh_arguments =
      ["-" ++ toString dim] ++ [geo_filename] ++ ["-format", mesh_file_type] ++
        ["-bin"] ++ ["-o", msh_filename] ++ extra_gmsh_arguments ++
        (if mesh_file_type = "mesh" then ["-string", "Mesh.SaveElementTagType=2;"]
          else []) := by
  unfold gmshArgs effectiveExtraArgs
  split <;> simp

/-- Claim C9: for every combination of the cleanup toggles, post-processing
returns `field_data` unchanged. -/
theorem postProcess_field_data (remove_faces prune_vertices prune_z_0 : Bool)
    (m : Mesh) :
    (postProcessMesh remove_faces prune_vertices prune_z_0 m).field_data =
      m.field_data := by
  unfold postProcessMesh
  simp only [field_data_ite, ite_self]

end Pygmsh
